import Mathlib

set_option maxRecDepth 8000

/-!
Shallow embedding of `ssh_config.py` (repository my4andle/ssh_harden).

The Python program is modelled over Lean `String`s (and their underlying
`Char` lists).  File contents are passed in as strings; the behaviour of
the remote side of one SSH session is an explicit environment mapping
each command string to the stdout/stderr it produces.  All definitions
are executable.
-/

/- ---------------------------------------------------------------------
Python string primitives
--------------------------------------------------------------------- -/

/-- The ASCII whitespace characters stripped by Python `str.strip()`. -/
def pyIsSpaceB (c : Char) : Bool :=
  c == ' ' || c == '\t' || c == '\n' || c == '\r' || c == '\x0b' || c == '\x0c'

/-- Drop the characters satisfying `p` from both ends of a character
list: the behaviour of Python `str.strip` with the corresponding set. -/
def stripBothIf (p : Char → Bool) (cs : List Char) : List Char :=
  ((cs.dropWhile p).reverse.dropWhile p).reverse

/-- Python `s.strip()`. -/
def pyStripWs (s : String) : String :=
  String.mk (stripBothIf pyIsSpaceB s.toList)

/-- Python `s.strip(c)` for a one-character strip set. -/
def pyStripChar (c : Char) (cs : List Char) : List Char :=
  stripBothIf (fun x => x == c) cs

/-- Python `s.split(sep)` for a single-character separator: every field
is kept, empty fields included; the empty string yields one empty
field. -/
def splitOnChar (sep : Char) : List Char → List (List Char)
  | [] => [[]]
  | c :: cs =>
    let ps := splitOnChar sep cs
    if c = sep then [] :: ps
    else
      match ps with
      | [] => [[c]]
      | p :: rest => (c :: p) :: rest

/-- `needle` is a leading block of `hay`. -/
def listStartsWith : List Char → List Char → Bool
  | [], _ => true
  | _ :: _, [] => false
  | a :: as, b :: bs => a == b && listStartsWith as bs

/-- Python substring containment `needle in hay` (on char lists). -/
def listContainsSub (needle : List Char) : List Char → Bool
  | [] => listStartsWith needle []
  | c :: rest => listStartsWith needle (c :: rest) || listContainsSub needle rest

/-- Python substring containment `needle in hay` on strings. -/
def pyInSubstr (needle hay : String) : Bool :=
  listContainsSub needle.toList hay.toList

/-- Universal-newline decoding performed by Python text-mode file
reading (`open(path, "r")` with the default `newline=None`): the line
endings "\r\n" and "\r" are both translated to "\n". -/
def translateNewlines : List Char → List Char
  | [] => []
  | '\r' :: '\n' :: rest => '\n' :: translateNewlines rest
  | '\r' :: rest => '\n' :: translateNewlines rest
  | c :: rest => c :: translateNewlines rest

/-- Split already-translated text into lines the way iterating a Python
text file does: each line keeps its trailing "\n"; a final line without
a terminator is still produced; empty content yields no lines. -/
def pyLinesAux (cur : List Char) : List Char → List (List Char)
  | [] => if cur = [] then [] else [cur.reverse]
  | c :: rest =>
    if c = '\n' then (cur.reverse ++ ['\n']) :: pyLinesAux [] rest
    else pyLinesAux (c :: cur) rest

/-- The list of lines obtained by iterating over `open(path, "r")` when
the file holds `content`: universal-newline translation followed by
line splitting (terminators kept). -/
def pyReadLines (content : String) : List String :=
  (pyLinesAux [] (translateNewlines content.toList)).map (fun l => String.mk l)

/-- Tail of a valid Python decimal literal body: digits with single
underscores allowed only between digits. -/
def pyIntDigitsTail : List Char → Bool
  | [] => true
  | '_' :: c :: rest => c.isDigit && pyIntDigitsTail rest
  | ['_'] => false
  | c :: rest => c.isDigit && pyIntDigitsTail rest

/-- Body of a valid Python decimal literal: nonempty, starts with a
digit, single underscores only between digits. -/
def pyIntDigits : List Char → Bool
  | [] => false
  | c :: rest => c.isDigit && pyIntDigitsTail rest

/-- Whether Python `int(s)` succeeds (ASCII decimal forms: surrounding
whitespace, an optional sign, then digits).  Only success matters to the
program: `bash_validate_nonroot_user` calls `int(...)` purely for the
`ValueError` it may raise and discards the value. -/
def pyParsesAsInt (s : String) : Bool :=
  match stripBothIf pyIsSpaceB s.toList with
  | '+' :: rest => pyIntDigits rest
  | '-' :: rest => pyIntDigits rest
  | cs => pyIntDigits cs

/- ---------------------------------------------------------------------
Model of Python `ipaddress.ip_address` (CPython >= 3.9.5 semantics).
`ip_address(s)` succeeds iff `s` parses as an IPv4 address or as an
IPv6 address; both branches are modelled below.
--------------------------------------------------------------------- -/

/-- Lowercase/uppercase ASCII hex digit. -/
def isHexDigitChar (c : Char) : Bool :=
  c.isDigit || (decide (97 ≤ c.toNat) && decide (c.toNat ≤ 102)) ||
    (decide (65 ≤ c.toNat) && decide (c.toNat ≤ 70))

/-- Numeric value of an ASCII hex digit. -/
def hexDigitVal (c : Char) : Nat :=
  if c.isDigit then c.toNat - 48
  else if 97 ≤ c.toNat then c.toNat - 87
  else c.toNat - 55

/-- CPython `IPv4Address._parse_octet`: nonempty, all ASCII digits, at
most three characters, no leading zero (except "0" itself), value at
most 255. -/
def parseOctet (cs : List Char) : Option Nat :=
  if cs = [] then none
  else if !cs.all Char.isDigit then none
  else if 3 < cs.length then none
  else if cs ≠ ['0'] ∧ cs.headD ' ' = '0' then none
  else
    let v := cs.foldl (fun a c => a * 10 + (c.toNat - 48)) 0
    if 255 < v then none else some v

/-- CPython `IPv4Address(s)`: reject a "/", split on ".", require
exactly four octets, combine big-endian. -/
def parseIPv4core (cs : List Char) : Option Nat :=
  if cs.contains '/' then none
  else
    let octets := splitOnChar '.' cs
    if octets.length = 4 then
      match octets.mapM parseOctet with
      | some os => some (os.foldl (fun a o => a * 256 + o) 0)
      | none => none
    else none

/-- CPython `IPv6Address._parse_hextet`: all hex digits, nonempty, at
most four characters. -/
def parseHextet (cs : List Char) : Option Nat :=
  if cs = [] then none
  else if 4 < cs.length then none
  else if cs.all isHexDigitChar then
    some (cs.foldl (fun a c => a * 16 + hexDigitVal c) 0)
  else none

/-- CPython `IPv6Address._split_scope_id`: an optional "%scope" suffix;
the scope id must be nonempty and must not itself hold a "%".  Returns
the address part, or `none` when the scope id is invalid. -/
def splitScope (cs : List Char) : Option (List Char) :=
  if cs.contains '%' then
    let addr := cs.takeWhile (fun c => c != '%')
    let scope := (cs.dropWhile (fun c => c != '%')).drop 1
    if scope = [] ∨ scope.contains '%' then none else some addr
  else some cs

/-- Indices of empty groups strictly inside the ":"-split parts list
(the candidates for the "::" gap in CPython `_ip_int_from_string`). -/
def interiorEmpties (parts : List (List Char)) : List Nat :=
  (parts.enum.filter
    (fun p => decide (0 < p.1) && decide (p.1 + 1 < parts.length) && decide (p.2 = []))).map
    (fun p => p.1)

/-- CPython `IPv6Address._ip_int_from_string` on the ":"-split parts:
at least three groups; a dotted last group is parsed as IPv4 and
expanded to two hextets; at most nine groups; at most one "::" gap,
which must cover at least one hextet; an empty first or last group is
only allowed as half of a leading or trailing "::". -/
def ipv6FromParts (parts0 : List (List Char)) : Option Nat :=
  if parts0.length < 3 then none
  else
    let last0 := parts0.getLastD []
    let expanded : Option (List (List Char)) :=
      if last0.contains '.' then
        (parseIPv4core last0).map (fun v4 =>
          parts0.dropLast ++
            [Nat.toDigits 16 ((v4 >>> 16) &&& 0xFFFF), Nat.toDigits 16 (v4 &&& 0xFFFF)])
      else some parts0
    match expanded with
    | none => none
    | some parts =>
      if 9 < parts.length then none
      else
        match interiorEmpties parts with
        | [] =>
          if parts.length = 8 then
            match parts.mapM parseHextet with
            | some hs => some (hs.foldl (fun a h => a * 65536 + h) 0)
            | none => none
          else none
        | [i] =>
          let lo0 := parts.length - i - 1
          let hiCountO : Option Nat :=
            if parts.headD [] = [] then (if i - 1 = 0 then some 0 else none) else some i
          let loCountO : Option Nat :=
            if parts.getLastD [] = [] then (if lo0 - 1 = 0 then some 0 else none) else some lo0
          match hiCountO, loCountO with
          | some hiCount, some loCount =>
            if 8 ≤ hiCount + loCount then none
            else
              let skipped := 8 - (hiCount + loCount)
              match (parts.take hiCount).mapM parseHextet,
                  (parts.drop (parts.length - loCount)).mapM parseHextet with
              | some hs, some ls =>
                some ((hs.foldl (fun a h => a * 65536 + h) 0) * 65536 ^ (skipped + loCount) +
                  ls.foldl (fun a h => a * 65536 + h) 0)
              | _, _ => none
          | _, _ => none
        | _ => none

/-- CPython `IPv6Address(s)`: reject a "/", split off an optional
percent scope, then parse the ":"-split groups. -/
def parseIPv6 (cs : List Char) : Option Nat :=
  if cs.contains '/' then none
  else
    match splitScope cs with
    | none => none
    | some addr => ipv6FromParts (splitOnChar ':' addr)

/-- Python `ipaddress.ip_address(s)` succeeds: IPv4 first, IPv6 second
(`validate_ipv4` only observes whether an exception was raised). -/
def pyIpAddressValid (s : String) : Bool :=
  (parseIPv4core s.toList).isSome || (parseIPv6 s.toList).isSome

/- ---------------------------------------------------------------------
ssh_config.py : address handling (lines 75-95) and main's --rhost
branch (lines 207-208)
--------------------------------------------------------------------- -/

/-- Python truthiness of the value returned by `validate_ipv4`:
`False` (here `none`) is falsy, a returned string is truthy iff it is
nonempty. -/
def pyTruthyStr : Option String → Bool
  | none => false
  | some s => s ≠ ""

/-- `validate_ipv4` (lines 75-84): calls `ipaddress.ip_address(ip)`;
returns `ip` itself on success and `False` (modelled as `none`) when
the call raises. -/
def validate_ipv4 (ip : String) : Option String :=
  if pyIpAddressValid ip then some ip else none

/-- The list built by the loop of `generate_list_from_file`
(lines 86-95): for every line of the file, strip "\n" then " " from
both ends, keep the candidate iff `validate_ipv4` returns a truthy
value. -/
def generate_candidates (content : String) : List String :=
  ((pyReadLines content).map
    (fun line => String.mk (pyStripChar ' ' (pyStripChar '\n' line.toList)))).filter
    (fun ip => pyTruthyStr (validate_ipv4 ip))

/-- `generate_list_from_file` (lines 86-95): the Python `set(...)` of
the accepted candidates, modelled as a `Finset`.  `content` is the text
of the file at the given path. -/
def generate_list_from_file (content : String) : Finset String :=
  (generate_candidates content).toFinset

/-- `main` lines 207-208: in the single `--rhost` branch the target
list is `[validate_ipv4(rhost)]`, whatever `validate_ipv4` returned;
the falsy `False` result is not checked, and `main` continues to the
session phase with this list. -/
def main_rhost_targets (rhost : String) : List (Option String) :=
  [validate_ipv4 rhost]

/- ---------------------------------------------------------------------
ssh_config.py : read_pubkey_file (lines 105-113)
--------------------------------------------------------------------- -/

/-- The exception raised when local or remote bash commands fail
(class `BashException`, lines 35-37); also raised by
`read_pubkey_file`. -/
structure BashException where
  msg : String
deriving DecidableEq

/-- The message of the exception raised by `read_pubkey_file`
(line 113). -/
def pubkeyFailMsg (file : String) : String :=
  "Failed to read the public key file or the file does not contain a public ssh key: " ++ file

/-- The loop body of `read_pubkey_file` (lines 109-113): the first
iteration either returns the stripped line (when it holds "ssh-rsa")
or raises; with no lines the loop body never runs and the function
falls through, returning Python `None` (modelled `Except.ok none`). -/
def read_pubkey_lines (file : String) : List String → Except BashException (Option String)
  | [] => Except.ok none
  | line :: _ =>
    if pyInSubstr "ssh-rsa" line then Except.ok (some (pyStripWs line))
    else Except.error ⟨pubkeyFailMsg file⟩

/-- `read_pubkey_file` (lines 105-113): `file` is the path (used only
in the error message), `content` the text stored at that path. -/
def read_pubkey_file (file content : String) : Except BashException (Option String) :=
  read_pubkey_lines file (pyReadLines content)

/- ---------------------------------------------------------------------
ssh_config.py : BashCommands (lines 40-51)
--------------------------------------------------------------------- -/

/-- The eight remote command strings built by `BashCommands.__init__`. -/
structure BashCommands where
  validateUser : String
  createUser : String
  chkSshDirMakeDir : String
  chkAuthKeysFileMakeFile : String
  addPubKeyToAuth : String
  disableRootSsh : String
  disablePassAuthSsh : String
  restartSshService : String
deriving DecidableEq

/-- `BashCommands(nonroot_user, pubkey)` (lines 42-51), with every
`str.format` substitution written out as concatenation. -/
def BashCommands.build (nonroot_user pubkey : String) : BashCommands where
  validateUser := "id -u " ++ nonroot_user
  createUser := "useradd -m " ++ nonroot_user ++ " && usermod -aG sudo " ++ nonroot_user ++
    " && echo '" ++ nonroot_user ++ " ALL=(ALL) ALL' >> /etc/sudoers"
  chkSshDirMakeDir := "if [ ! -d /home/" ++ nonroot_user ++ "/.ssh ];then mkdir /home/" ++
    nonroot_user ++ "/.ssh;fi"
  chkAuthKeysFileMakeFile := "if [ ! -f /home/" ++ nonroot_user ++
    "/.ssh/authorization_keys ];then touch /home/" ++ nonroot_user ++
    "/.ssh/authorization_keys && chown " ++ nonroot_user ++ ":" ++ nonroot_user ++
    " /home/" ++ nonroot_user ++ "/.ssh/authorization_keys && chmod 600 /home/" ++
    nonroot_user ++ "/.ssh/authorization_keys ;fi"
  addPubKeyToAuth := "echo '" ++ pubkey ++ "' >> /home/" ++ nonroot_user ++
    "/.ssh/authorized_keys"
  disableRootSsh := "sed -i -e 's/PermitRootLogin yes/PermitRootLogin no/g' /etc/ssh/sshd_config"
  disablePassAuthSsh :=
    "sed -i -e 's/PasswordAuthentication yes/PasswordAuthentication no/g' /etc/ssh/sshd_config"
  restartSshService := "service ssh restart"

/-- The file whose existence, ownership and permissions the fourth
command (`chkAuthKeysFileMakeFile`, line 46) manages. -/
def step4AuthFile (nonroot_user : String) : String :=
  "/home/" ++ nonroot_user ++ "/.ssh/authorization_keys"

/-- The file to which the fifth command (`addPubKeyToAuth`, line 47)
appends the public key. -/
def step5AuthFile (nonroot_user : String) : String :=
  "/home/" ++ nonroot_user ++ "/.ssh/authorized_keys"

/- ---------------------------------------------------------------------
ssh_config.py : one remote session (lines 115-172)
--------------------------------------------------------------------- -/

/-- How `login_ssh` (lines 115-131) behaves for one target: the
`client.connect` call either returns a client, or raises a connect /
banner timeout, or raises an authentication failure. -/
inductive LoginResult where
  | ok
  | timeout
  | authFail
deriving DecidableEq

/-- What one `ssh_client.exec_command(cmd)` produces remotely: the
bytes read from stdout and stderr (already decoded). -/
structure ExecResult where
  stdout : String
  stderr : String

/-- The remote side of one target's session: the outcome of the login
attempt and the output of each command string. -/
structure RemoteEnv where
  login : LoginResult
  exec : String → ExecResult

/-- `bash_validate_nonroot_user` (lines 133-147): runs `cmd`, returns
`False` when stderr is nonempty, otherwise `True` iff `int(stdout)`
parses (the `ValueError` of a failed parse is caught and gives
`False`).  `_user` is only logged in the source. -/
def bash_validate_nonroot_user (cmd : String) (_user : String) (env : RemoteEnv) : Bool :=
  if (env.exec cmd).stderr ≠ "" then false
  else pyParsesAsInt (env.exec cmd).stdout

/-- `execute_bash` (lines 149-155): runs `cmd` and raises
`BashException` iff the remote stderr is nonempty. -/
def execute_bash (cmd : String) (env : RemoteEnv) (target : String) :
    Except BashException Unit :=
  if (env.exec cmd).stderr = "" then Except.ok ()
  else
    Except.error ⟨"[-] Bash command " ++ cmd ++ " failed with error " ++
      (env.exec cmd).stderr ++ " for target " ++ target⟩

/-- The commands the `try` block of `configure_target` issues through
`execute_bash` after the create-user decision (lines 164-169), in
program order. -/
def fatalCmds (cmds : BashCommands) : List String :=
  [cmds.chkSshDirMakeDir, cmds.chkAuthKeysFileMakeFile, cmds.addPubKeyToAuth,
    cmds.disableRootSsh, cmds.disablePassAuthSsh, cmds.restartSshService]

/-- The full `execute_bash` schedule of one session (lines 162-169):
`createUser` exactly when the probe reported `False`, then the six
fatal commands. -/
def sessionSteps (cmds : BashCommands) (nonroot_user : String) (env : RemoteEnv) :
    List String :=
  (if bash_validate_nonroot_user cmds.validateUser nonroot_user env then []
   else [cmds.createUser]) ++ fatalCmds cmds

/-- Run a list of `execute_bash` calls the way the `try` block does: an
exception aborts the remaining calls.  Returns the commands actually
issued, in order, and whether all of them succeeded. -/
def execChain (env : RemoteEnv) (target : String) : List String → List String × Bool
  | [] => ([], true)
  | c :: cs =>
    match execute_bash c env target with
    | Except.ok _ =>
      let r := execChain env target cs
      (c :: r.1, r.2)
    | Except.error _ => ([c], false)

/-- The status field of the per-target result dict. -/
inductive SessionStatus where
  | Succeeded
  | Failed
deriving DecidableEq

/-- The dict returned by `configure_target`
(`{"Target": target, "Status": ...}`, lines 170 and 172). -/
structure SessionOutcome where
  target : String
  status : SessionStatus
deriving DecidableEq

/-- `configure_target` (lines 157-172) instrumented with the list of
commands sent through `exec_command`: a login failure is caught by the
`except` with no command executed; otherwise the probe runs first and
the session schedule follows, a `BashException` being caught by the
same `except`.  (`login_user`, `password` and `pubkey` only feed
`login_ssh` and the prebuilt commands, which the environment and `cmds`
already capture.) -/
def configure_target_trace (cmds : BashCommands) (nonroot_user : String)
    (env : RemoteEnv) (target : String) : SessionOutcome × List String :=
  match env.login with
  | LoginResult.timeout => (⟨target, SessionStatus.Failed⟩, [])
  | LoginResult.authFail => (⟨target, SessionStatus.Failed⟩, [])
  | LoginResult.ok =>
    let r := execChain env target (sessionSteps cmds nonroot_user env)
    (⟨target, if r.2 then SessionStatus.Succeeded else SessionStatus.Failed⟩,
      cmds.validateUser :: r.1)

/-- The value `configure_target` returns. -/
def configure_target (cmds : BashCommands) (nonroot_user : String)
    (env : RemoteEnv) (target : String) : SessionOutcome :=
  (configure_target_trace cmds nonroot_user env target).1

/- ---------------------------------------------------------------------
ssh_config.py : configure_target_concurrent (lines 174-188)
--------------------------------------------------------------------- -/

/-- The `ValueError("max_workers must be greater than 0")` that
`concurrent.futures.ProcessPoolExecutor.__init__` raises when
`max_workers <= 0`. -/
inductive PoolInitError where
  | maxWorkersNotPositive
deriving DecidableEq

/-- The `if future.result():` test (line 186): the result is the
two-key dict built by `configure_target`, and a nonempty dict is always
truthy in Python. -/
def outcomeDictTruthy (_o : SessionOutcome) : Bool := true

/-- `configure_target_concurrent` (lines 174-188).  `envOf` gives each
target's remote behaviour; `completion` is the order in which
`as_completed` yields the submitted futures, as positions in `targets`
(any permutation of them, fixed nondeterministically by the
scheduler).  `workers = min(len(targets), 20)` is passed to
`ProcessPoolExecutor`, which raises when it is zero; otherwise one
future per target is submitted and every truthy result is collected in
completion order. -/
def configure_target_concurrent (envOf : String → RemoteEnv) (completion : List Nat)
    (targets : List String) (nonroot_user : String) (cmds : BashCommands) :
    Except PoolInitError (List SessionOutcome) :=
  let workers := if targets.length > 20 then 20 else targets.length
  if workers = 0 then Except.error PoolInitError.maxWorkersNotPositive
  else
    let outcomes := targets.map (fun t => configure_target cmds nonroot_user (envOf t) t)
    Except.ok ((completion.filterMap (fun i => outcomes[i]?)).filter outcomeDictTruthy)

/- ---------------------------------------------------------------------
Concrete fixtures used by the witness theorems
--------------------------------------------------------------------- -/

/-- A public-key line as substituted into the commands. -/
def pkEx : String := "ssh-rsa AAAAB3Nza key@host"

/-- A remote host on which everything works: login succeeds, the probe
prints a uid, every command is silent on stderr. -/
def envAllOk : RemoteEnv where
  login := LoginResult.ok
  exec := fun _ => ⟨"1000\n", ""⟩

/-- A remote host on which the validate-user probe itself fails (id
prints to stderr) while every other command succeeds silently. -/
def envProbeFails : RemoteEnv where
  login := LoginResult.ok
  exec := fun cmd =>
    if cmd = (BashCommands.build "deploy" pkEx).validateUser then
      ⟨"", "id: no such user"⟩
    else ⟨"", ""⟩

/-- A remote host on which login works and the probe finds the user,
but the third step (ensure the .ssh directory) fails remotely. -/
def envStep3Fails : RemoteEnv where
  login := LoginResult.ok
  exec := fun cmd =>
    if cmd = (BashCommands.build "deploy" pkEx).chkSshDirMakeDir then
      ⟨"", "mkdir: cannot create directory"⟩
    else ⟨"1000\n", ""⟩

/-- A file whose lines are `ls`, each terminated with `terminator`
(used to compare CRLF- and LF-terminated inputs). -/
def joinLinesWith (terminator : String) : List String → String
  | [] => ""
  | l :: ls => l ++ terminator ++ joinLinesWith terminator ls

/- ---------------------------------------------------------------------
Lemmas about the embedding
--------------------------------------------------------------------- -/

theorem execChain_cons_ok (env : RemoteEnv) (target c : String) (cs : List String)
    (hc : (env.exec c).stderr = "") :
    execChain env target (c :: cs) =
      (c :: (execChain env target cs).1, (execChain env target cs).2) := by
  simp [execChain, execute_bash, hc]

theorem execChain_cons_fail (env : RemoteEnv) (target c : String) (cs : List String)
    (hc : (env.exec c).stderr ≠ "") :
    execChain env target (c :: cs) = ([c], false) := by
  simp [execChain, execute_bash, hc]

theorem execChain_all_ok (env : RemoteEnv) (target : String) (steps : List String)
    (h : ∀ x ∈ steps, (env.exec x).stderr = "") :
    execChain env target steps = (steps, true) := by
  induction steps with
  | nil => rfl
  | cons c cs ih =>
    rw [execChain_cons_ok env target c cs (h c (by simp))]
    rw [ih (fun x hx => h x (by simp [hx]))]

theorem execChain_fail (env : RemoteEnv) (target : String) (pre : List String)
    (c : String) (post : List String)
    (hpre : ∀ x ∈ pre, (env.exec x).stderr = "") (hc : (env.exec c).stderr ≠ "") :
    execChain env target (pre ++ c :: post) = (pre ++ [c], false) := by
  induction pre with
  | nil => simpa using execChain_cons_fail env target c post hc
  | cons x xs ih =>
    have hx : (env.exec x).stderr = "" := hpre x (by simp)
    rw [List.cons_append, execChain_cons_ok env target x _ hx,
      ih (fun y hy => hpre y (by simp [hy]))]
    simp

theorem execChain_snd_false_iff (env : RemoteEnv) (target : String) (steps : List String) :
    (execChain env target steps).2 = false ↔
      ∃ pre c post, steps = pre ++ c :: post ∧
        (∀ x ∈ pre, (env.exec x).stderr = "") ∧ (env.exec c).stderr ≠ "" := by
  constructor
  · induction steps with
    | nil => intro h; simp [execChain] at h
    | cons c cs ih =>
      intro h
      by_cases hc : (env.exec c).stderr = ""
      · rw [execChain_cons_ok env target c cs hc] at h
        obtain ⟨pre, d, post, h1, h2, h3⟩ := ih (by simpa using h)
        refine ⟨c :: pre, d, post, by simp [h1], ?_, h3⟩
        intro x hx
        rcases List.mem_cons.mp hx with rfl | hx'
        · exact hc
        · exact h2 x hx'
      · exact ⟨[], c, cs, rfl, by simp, hc⟩
  · rintro ⟨pre, c, post, rfl, h2, h3⟩
    rw [execChain_fail env target pre c post h2 h3]

theorem execChain_fst_subset (env : RemoteEnv) (target : String) (steps : List String) :
    ∀ x ∈ (execChain env target steps).1, x ∈ steps := by
  induction steps with
  | nil => simp [execChain]
  | cons c cs ih =>
    by_cases hc : (env.exec c).stderr = ""
    · rw [execChain_cons_ok env target c cs hc]
      intro x hx
      rcases List.mem_cons.mp hx with rfl | hx'
      · simp
      · simp [ih x hx']
    · rw [execChain_cons_fail env target c cs hc]
      intro x hx
      simp at hx
      simp [hx]

theorem execChain_fst_mem_head (env : RemoteEnv) (target c : String) (cs : List String) :
    c ∈ (execChain env target (c :: cs)).1 := by
  by_cases hc : (env.exec c).stderr = ""
  · rw [execChain_cons_ok env target c cs hc]; simp
  · rw [execChain_cons_fail env target c cs hc]; simp

theorem configure_target_target (cmds : BashCommands) (nonroot_user : String)
    (env : RemoteEnv) (target : String) :
    (configure_target cmds nonroot_user env target).target = target := by
  cases h : env.login <;> simp [configure_target, configure_target_trace, h]

theorem configure_target_failed_iff (cmds : BashCommands) (nonroot_user : String)
    (env : RemoteEnv) (target : String) :
    (configure_target cmds nonroot_user env target).status = SessionStatus.Failed ↔
      (env.login = LoginResult.timeout ∨ env.login = LoginResult.authFail ∨
        (env.login = LoginResult.ok ∧
          (execChain env target (sessionSteps cmds nonroot_user env)).2 = false)) := by
  cases h : env.login with
  | timeout => simp [configure_target, configure_target_trace, h]
  | authFail => simp [configure_target, configure_target_trace, h]
  | ok =>
    cases hr : (execChain env target (sessionSteps cmds nonroot_user env)).2 <;>
      simp [configure_target, configure_target_trace, h, hr]

theorem range_filterMap_getElem {α : Type} (xs : List α) :
    (List.range xs.length).filterMap (fun i => xs[i]?) = xs := by
  induction xs with
  | nil => simp
  | cons a t ih =>
    rw [List.length_cons, List.range_succ_eq_map, List.filterMap_cons]
    simp only [List.getElem?_cons_zero]
    rw [List.filterMap_map]
    have hfun : ((fun i => (a :: t)[i]?) ∘ Nat.succ) = fun i => t[i]? := by
      funext i
      simp
    rw [hfun, ih]

theorem filter_outcomeDictTruthy (l : List SessionOutcome) :
    l.filter outcomeDictTruthy = l := by
  induction l with
  | nil => rfl
  | cons a t ih => simp [List.filter, outcomeDictTruthy, ih]

theorem build_createUser_head (u k : String) :
    ((BashCommands.build u k).createUser).data.head? = some 'u' := rfl

theorem build_validateUser_head (u k : String) :
    ((BashCommands.build u k).validateUser).data.head? = some 'i' := rfl

theorem build_chkSshDirMakeDir_head (u k : String) :
    ((BashCommands.build u k).chkSshDirMakeDir).data.head? = some 'i' := rfl

theorem build_chkAuthKeysFileMakeFile_head (u k : String) :
    ((BashCommands.build u k).chkAuthKeysFileMakeFile).data.head? = some 'i' := rfl

theorem build_addPubKeyToAuth_head (u k : String) :
    ((BashCommands.build u k).addPubKeyToAuth).data.head? = some 'e' := rfl

theorem build_disableRootSsh_head (u k : String) :
    ((BashCommands.build u k).disableRootSsh).data.head? = some 's' := rfl

theorem build_disablePassAuthSsh_head (u k : String) :
    ((BashCommands.build u k).disablePassAuthSsh).data.head? = some 's' := rfl

theorem build_restartSshService_head (u k : String) :
    ((BashCommands.build u k).restartSshService).data.head? = some 's' := rfl

theorem build_createUser_ne_validateUser (u k : String) :
    (BashCommands.build u k).createUser ≠ (BashCommands.build u k).validateUser := by
  intro h
  have hh := build_createUser_head u k
  rw [h, build_validateUser_head] at hh
  exact absurd hh (by decide)

theorem build_createUser_notin_fatal (u k : String) :
    (BashCommands.build u k).createUser ∉ fatalCmds (BashCommands.build u k) := by
  intro hmem
  have hh := build_createUser_head u k
  simp only [fatalCmds, List.mem_cons, List.not_mem_nil, or_false] at hmem
  rcases hmem with h | h | h | h | h | h
  · rw [h, build_chkSshDirMakeDir_head] at hh; exact absurd hh (by decide)
  · rw [h, build_chkAuthKeysFileMakeFile_head] at hh; exact absurd hh (by decide)
  · rw [h, build_addPubKeyToAuth_head] at hh; exact absurd hh (by decide)
  · rw [h, build_disableRootSsh_head] at hh; exact absurd hh (by decide)
  · rw [h, build_disablePassAuthSsh_head] at hh; exact absurd hh (by decide)
  · rw [h, build_restartSshService_head] at hh; exact absurd hh (by decide)

theorem translateNewlines_cons_ne (c : Char) (l : List Char) (hc : c ≠ '\r') :
    translateNewlines (c :: l) = c :: translateNewlines l := by
  cases l with
  | nil => simp [translateNewlines, hc]
  | cons d rest =>
    cases hd : decide (d = '\n') <;> simp_all [translateNewlines, hc]

theorem translateNewlines_append_noCR (cs : List Char) (rest : List Char)
    (h : ∀ ch ∈ cs, ch ≠ '\r') :
    translateNewlines (cs ++ rest) = cs ++ translateNewlines rest := by
  induction cs with
  | nil => rfl
  | cons c cs ih =>
    rw [List.cons_append,
      translateNewlines_cons_ne c (cs ++ rest) (h c (by simp)),
      ih (fun ch hch => h ch (by simp [hch])), List.cons_append]

theorem translateNewlines_crlf (rest : List Char) :
    translateNewlines ('\r' :: '\n' :: rest) = '\n' :: translateNewlines rest := by
  simp [translateNewlines]

theorem translateNewlines_join (ls : List String)
    (h : ∀ l ∈ ls, ∀ ch ∈ l.toList, ch ≠ '\r') :
    translateNewlines (joinLinesWith "\r\n" ls).toList =
      translateNewlines (joinLinesWith "\n" ls).toList := by
  induction ls with
  | nil => rfl
  | cons l ls ih =>
    have hl : ∀ ch ∈ l.toList, ch ≠ '\r' := h l (by simp)
    have ih' := ih (fun x hx => h x (by simp [hx]))
    show translateNewlines (l ++ "\r\n" ++ joinLinesWith "\r\n" ls).toList =
      translateNewlines (l ++ "\n" ++ joinLinesWith "\n" ls).toList
    have e1 : (l ++ "\r\n" ++ joinLinesWith "\r\n" ls).toList =
        l.toList ++ ('\r' :: '\n' :: (joinLinesWith "\r\n" ls).toList) := by
      simp [String.toList, String.data_append]
    have e2 : (l ++ "\n" ++ joinLinesWith "\n" ls).toList =
        l.toList ++ ('\n' :: (joinLinesWith "\n" ls).toList) := by
      simp [String.toList, String.data_append]
    rw [e1, e2, translateNewlines_append_noCR _ _ hl,
      translateNewlines_append_noCR _ _ hl, translateNewlines_crlf,
      translateNewlines_cons_ne '\n' _ (by decide), ih']

/- ---------------------------------------------------------------------
Claim theorems
--------------------------------------------------------------------- -/

/-- Claim C1 (code bug): for the malformed single `--rhost` value
"999.0.0.1", `validate_ipv4` merely returns `False` (no exception of
any kind is raised), and `main` lines 207-208 put that `False` into the
target list unchecked and continue to the session phase with a
one-element target list; the run is not aborted with an
`InvalidAddress` error before sessions are attempted, contrary to the
claim. -/
theorem claim_c1_code_bug :
    validate_ipv4 "999.0.0.1" = none ∧
    main_rhost_targets "999.0.0.1" = [none] ∧
    main_rhost_targets "999.0.0.1" ≠ [] := by decide

/-- Claim C2 (counterexample): on the empty target set,
`configure_target_concurrent` computes `workers = 0` and
`ProcessPoolExecutor(max_workers=0)` raises
`ValueError("max_workers must be greater than 0")`; the claimed empty
report is never produced. -/
theorem claim_c2_counterexample :
    configure_target_concurrent (fun _ => envAllOk) [] [] "deploy"
      (BashCommands.build "deploy" pkEx) =
      Except.error PoolInitError.maxWorkersNotPositive := rfl

/-- Claim C2 (amended): for an empty target set,
`configure_target_concurrent` always fails with the `ValueError`
raised by `ProcessPoolExecutor` for `max_workers = 0`, whatever the
environment, completion order, user and command set. -/
theorem claim_c2_amended (envOf : String → RemoteEnv) (completion : List Nat)
    (nonroot_user : String) (cmds : BashCommands) :
    configure_target_concurrent envOf completion [] nonroot_user cmds =
      Except.error PoolInitError.maxWorkersNotPositive := rfl

/-- Claim C5 (code bug): for user "deploy", the fourth command
manages the file `/home/deploy/.ssh/authorization_keys` while the
fifth appends to `/home/deploy/.ssh/authorized_keys`; the fourth
command never mentions the file the fifth writes to (and conversely),
and the two paths are different, so steps 4 and 5 do not refer to the
same remote file. -/
theorem claim_c5_code_bug :
    pyInSubstr (step4AuthFile "deploy")
      ((BashCommands.build "deploy" pkEx).chkAuthKeysFileMakeFile) = true ∧
    pyInSubstr (step5AuthFile "deploy")
      ((BashCommands.build "deploy" pkEx).addPubKeyToAuth) = true ∧
    pyInSubstr (step5AuthFile "deploy")
      ((BashCommands.build "deploy" pkEx).chkAuthKeysFileMakeFile) = false ∧
    pyInSubstr (step4AuthFile "deploy")
      ((BashCommands.build "deploy" pkEx).addPubKeyToAuth) = false ∧
    step4AuthFile "deploy" ≠ step5AuthFile "deploy" := by decide

/-- Claim C6 (code bug): on a key file whose first line is a comment
and whose second line is the ssh-rsa key, `read_pubkey_file` raises on
the first loop iteration even though a recognizable public-key line is
present; and on an empty file it returns Python `None` without raising
at all. -/
theorem claim_c6_code_bug :
    read_pubkey_file "./key.pub" "# comment\nssh-rsa AAAB3Nza key\n" =
      Except.error ⟨pubkeyFailMsg "./key.pub"⟩ ∧
    (∃ l ∈ pyReadLines "# comment\nssh-rsa AAAB3Nza key\n",
      pyInSubstr "ssh-rsa" l = true) ∧
    read_pubkey_file "./key.pub" "" = Except.ok none :=
  ⟨rfl, ⟨"ssh-rsa AAAB3Nza key\n", by decide, by decide⟩, rfl⟩

/-- Claim C7 (code bug): a file consisting of the line "::1" yields
the set containing "::1" even though "::1" is not a syntactically
correct IPv4 address (`ipaddress.ip_address` also accepts IPv6, so
`validate_ipv4` returns a truthy value for it, contradicting its own
name and docstring); dropping invalid lines and deduplication do work
as claimed, as the second file shows. -/
theorem claim_c7_code_bug :
    ("::1" ∈ generate_list_from_file "::1\n") ∧
    parseIPv4core "::1".toList = none ∧
    pyTruthyStr (validate_ipv4 "::1") = true ∧
    generate_list_from_file "1.2.3.4\nbogus\n1.2.3.4\n" = {"1.2.3.4"} := by decide

/-- Claim C10 (counterexample): a CRLF-terminated file of one valid
IPv4 address produces the singleton set, not the empty set: text-mode
reading translates "\r\n" to "\n" before the stripping, so no carriage
return ever reaches `validate_ipv4`. -/
theorem claim_c10_counterexample :
    generate_list_from_file "1.2.3.4\r\n" = {"1.2.3.4"} ∧
    generate_list_from_file "1.2.3.4\r\n" ≠ (∅ : Finset String) := by decide

/-- Claim C10 (amended): for any list of CR-free lines, the
CRLF-terminated file and the LF-terminated file produce the same
address set — universal-newline translation makes the two inputs
identical before validation, so CRLF termination changes nothing. -/
theorem claim_c10_amended (ls : List String)
    (h : ∀ l ∈ ls, ∀ ch ∈ l.toList, ch ≠ '\r') :
    generate_list_from_file (joinLinesWith "\r\n" ls) =
      generate_list_from_file (joinLinesWith "\n" ls) := by
  unfold generate_list_from_file generate_candidates pyReadLines
  rw [translateNewlines_join ls h]

/-- Witness for C10 (amended) at a concrete two-line file. -/
theorem claim_c10_amended_witness :
    (∀ l ∈ (["1.2.3.4", "10.0.0.5"] : List String), ∀ ch ∈ l.toList, ch ≠ '\r') ∧
    generate_list_from_file (joinLinesWith "\r\n" ["1.2.3.4", "10.0.0.5"]) =
      generate_list_from_file (joinLinesWith "\n" ["1.2.3.4", "10.0.0.5"]) :=
  ⟨by decide, claim_c10_amended ["1.2.3.4", "10.0.0.5"] (by decide)⟩

/-- Claim C3: `configure_target` is total over every injected failure —
the returned record always carries the given target and a status that
is `Succeeded` or `Failed`, and the status is `Failed` exactly when the
login raised (connect/banner timeout or authentication failure) or,
after a successful login, some reachable step of the session schedule
produced remote error output; so every injected failure yields the
`Failed` outcome and nothing escapes the function. -/
theorem claim_c3 (cmds : BashCommands) (nonroot_user : String) (env : RemoteEnv)
    (target : String) :
    (configure_target cmds nonroot_user env target).target = target ∧
    ((configure_target cmds nonroot_user env target).status = SessionStatus.Succeeded ∨
      (configure_target cmds nonroot_user env target).status = SessionStatus.Failed) ∧
    ((configure_target cmds nonroot_user env target).status = SessionStatus.Failed ↔
      (env.login = LoginResult.timeout ∨ env.login = LoginResult.authFail ∨
        (env.login = LoginResult.ok ∧ ∃ pre c post,
          sessionSteps cmds nonroot_user env = pre ++ c :: post ∧
          (∀ x ∈ pre, (env.exec x).stderr = "") ∧ (env.exec c).stderr ≠ ""))) := by
  refine ⟨configure_target_target cmds nonroot_user env target, ?_, ?_⟩
  · cases (configure_target cmds nonroot_user env target).status
    · exact Or.inl rfl
    · exact Or.inr rfl
  · have h2 := configure_target_failed_iff cmds nonroot_user env target
    rw [execChain_snd_false_iff] at h2
    exact h2

/-- Claim C9: after a successful login, if every command before `c` in
the session schedule is clean and `c` produces remote error output,
then the session executes exactly the probe followed by the clean
prefix and `c` itself — nothing after `c` runs, nothing besides those
commands (in particular no undo command) ever runs, and the outcome is
`Failed`. -/
theorem claim_c9 (cmds : BashCommands) (nonroot_user : String) (env : RemoteEnv)
    (target : String) (pre post : List String) (c : String)
    (hlogin : env.login = LoginResult.ok)
    (hsteps : sessionSteps cmds nonroot_user env = pre ++ c :: post)
    (hpre : ∀ x ∈ pre, (env.exec x).stderr = "")
    (hc : (env.exec c).stderr ≠ "") :
    configure_target_trace cmds nonroot_user env target =
      (⟨target, SessionStatus.Failed⟩, cmds.validateUser :: (pre ++ [c])) ∧
    (∀ d ∈ post, d ≠ cmds.validateUser → d ∉ pre → d ≠ c →
      d ∉ (configure_target_trace cmds nonroot_user env target).2) := by
  have hch : execChain env target (sessionSteps cmds nonroot_user env) = (pre ++ [c], false) := by
    rw [hsteps]
    exact execChain_fail env target pre c post hpre hc
  have h1 : configure_target_trace cmds nonroot_user env target =
      (⟨target, SessionStatus.Failed⟩, cmds.validateUser :: (pre ++ [c])) := by
    simp [configure_target_trace, hlogin, hch]
  refine ⟨h1, ?_⟩
  intro d _hd hdv hdpre hdc hmem
  rw [h1] at hmem
  rcases List.mem_cons.mp hmem with h | h
  · exact hdv h
  · rcases List.mem_append.mp h with h' | h'
    · exact hdpre h'
    · exact hdc (by simpa using h')

/-- Witness for C9: user "deploy" exists, the ensure-ssh-dir step fails
remotely, and the session stops right there with a Failed outcome: the
trace is exactly probe-then-failing-step. -/
theorem claim_c9_witness :
    (envStep3Fails.login = LoginResult.ok) ∧
    ((envStep3Fails.exec ((BashCommands.build "deploy" pkEx).chkSshDirMakeDir)).stderr ≠ "") ∧
    configure_target_trace (BashCommands.build "deploy" pkEx) "deploy" envStep3Fails "10.0.0.5" =
      (⟨"10.0.0.5", SessionStatus.Failed⟩,
        (BashCommands.build "deploy" pkEx).validateUser ::
          ([] ++ [(BashCommands.build "deploy" pkEx).chkSshDirMakeDir])) :=
  ⟨rfl, by decide,
    (claim_c9 (BashCommands.build "deploy" pkEx) "deploy" envStep3Fails "10.0.0.5" []
      [(BashCommands.build "deploy" pkEx).chkAuthKeysFileMakeFile,
        (BashCommands.build "deploy" pkEx).addPubKeyToAuth,
        (BashCommands.build "deploy" pkEx).disableRootSsh,
        (BashCommands.build "deploy" pkEx).disablePassAuthSsh,
        (BashCommands.build "deploy" pkEx).restartSshService]
      ((BashCommands.build "deploy" pkEx).chkSshDirMakeDir)
      rfl (by decide) (by simp) (by decide)).1⟩

/-- Claim C8: after a successful login, the probe reports `False`
exactly when its remote stderr is nonempty or its stdout does not parse
as an integer; the create-user command is executed (appears in the
session's command trace) exactly when the probe reported `False`; and a
probe failure alone never fails the session — if every scheduled
command is clean the outcome is `Succeeded`. -/
theorem claim_c8 (u k nonroot_user target : String) (env : RemoteEnv)
    (hlogin : env.login = LoginResult.ok) :
    (bash_validate_nonroot_user (BashCommands.build u k).validateUser nonroot_user env = false ↔
      ((env.exec (BashCommands.build u k).validateUser).stderr ≠ "" ∨
        pyParsesAsInt (env.exec (BashCommands.build u k).validateUser).stdout = false)) ∧
    ((BashCommands.build u k).createUser ∈
        (configure_target_trace (BashCommands.build u k) nonroot_user env target).2 ↔
      bash_validate_nonroot_user (BashCommands.build u k).validateUser nonroot_user env = false) ∧
    (bash_validate_nonroot_user (BashCommands.build u k).validateUser nonroot_user env = false →
      (∀ x ∈ sessionSteps (BashCommands.build u k) nonroot_user env,
        (env.exec x).stderr = "") →
      (configure_target (BashCommands.build u k) nonroot_user env target).status =
        SessionStatus.Succeeded) := by
  have htrace : (configure_target_trace (BashCommands.build u k) nonroot_user env target).2 =
      (BashCommands.build u k).validateUser ::
        (execChain env target (sessionSteps (BashCommands.build u k) nonroot_user env)).1 := by
    simp [configure_target_trace, hlogin]
  refine ⟨?_, ?_, ?_⟩
  · by_cases he : (env.exec (BashCommands.build u k).validateUser).stderr = ""
    · simp [bash_validate_nonroot_user, he]
    · simp [bash_validate_nonroot_user, he]
  · rw [htrace]
    cases hv : bash_validate_nonroot_user (BashCommands.build u k).validateUser nonroot_user env
    · constructor
      · intro _; rfl
      · intro _
        have hsteps : sessionSteps (BashCommands.build u k) nonroot_user env =
            (BashCommands.build u k).createUser :: fatalCmds (BashCommands.build u k) := by
          simp [sessionSteps, hv]
        rw [hsteps]
        exact List.mem_cons_of_mem _ (execChain_fst_mem_head env target _ _)
    · constructor
      · intro hmem
        exfalso
        have hsteps : sessionSteps (BashCommands.build u k) nonroot_user env =
            fatalCmds (BashCommands.build u k) := by
          simp [sessionSteps, hv]
        rcases List.mem_cons.mp hmem with h | h
        · exact build_createUser_ne_validateUser u k h
        · exact build_createUser_notin_fatal u k
            (execChain_fst_subset env target _ _ (by rw [← hsteps]; exact h))
      · intro h; exact absurd h (by simp)
  · intro _hv hclean
    have hch := execChain_all_ok env target _ hclean
    simp [configure_target, configure_target_trace, hlogin, hch]

/-- Witness for C8: the probe itself errors on stderr, so the user is
treated as absent; create-user appears in the trace, and since every
scheduled command is clean the session still succeeds. -/
theorem claim_c8_witness :
    (envProbeFails.login = LoginResult.ok) ∧
    (BashCommands.build "deploy" pkEx).createUser ∈
      (configure_target_trace (BashCommands.build "deploy" pkEx) "deploy" envProbeFails
        "10.0.0.5").2 ∧
    (configure_target (BashCommands.build "deploy" pkEx) "deploy" envProbeFails
      "10.0.0.5").status = SessionStatus.Succeeded :=
  ⟨rfl,
    ((claim_c8 "deploy" pkEx "deploy" "10.0.0.5" envProbeFails rfl).2.1).mpr (by decide),
    (claim_c8 "deploy" pkEx "deploy" "10.0.0.5" envProbeFails rfl).2.2 (by decide) (by decide)⟩

/-- Claim C4: for every non-empty target list (and any completion order
of the submitted futures), `configure_target_concurrent` returns a
report with exactly one outcome per input target: its length equals the
number of targets, the multiset of outcome targets is a permutation of
the input targets (no omissions), and when the input has no duplicates
neither does the output. -/
theorem claim_c4 (envOf : String → RemoteEnv) (completion : List Nat)
    (targets : List String) (nonroot_user : String) (cmds : BashCommands)
    (hne : targets ≠ [])
    (hperm : completion.Perm (List.range targets.length)) :
    ∃ report, configure_target_concurrent envOf completion targets nonroot_user cmds =
        Except.ok report ∧
      report.length = targets.length ∧
      (report.map SessionOutcome.target).Perm targets ∧
      (∀ t ∈ targets, ∃ o ∈ report, o.target = t) ∧
      (targets.Nodup → (report.map SessionOutcome.target).Nodup) := by
  have hw : (if targets.length > 20 then 20 else targets.length) ≠ 0 := by
    split
    · decide
    · simpa [List.length_eq_zero] using hne
  refine ⟨(completion.filterMap
    (fun i => (targets.map (fun t => configure_target cmds nonroot_user (envOf t) t))[i]?)).filter
      outcomeDictTruthy, ?_, ?_⟩
  · simp only [configure_target_concurrent]
    rw [if_neg hw]
  · have hlen : (targets.map (fun t => configure_target cmds nonroot_user (envOf t) t)).length =
        targets.length := List.length_map _ _
    have hperm2 : (completion.filterMap
        (fun i => (targets.map (fun t => configure_target cmds nonroot_user (envOf t) t))[i]?)).Perm
        (targets.map (fun t => configure_target cmds nonroot_user (envOf t) t)) := by
      have h1 := List.Perm.filterMap
        (fun i => (targets.map (fun t => configure_target cmds nonroot_user (envOf t) t))[i]?) hperm
      rw [← hlen] at h1
      rwa [range_filterMap_getElem] at h1
    rw [filter_outcomeDictTruthy]
    have hmap : (targets.map (fun t => configure_target cmds nonroot_user (envOf t) t)).map
        SessionOutcome.target = targets := by
      rw [List.map_map]
      have hfun : (SessionOutcome.target ∘ fun t => configure_target cmds nonroot_user (envOf t) t) =
          id := by
        funext t
        simp [configure_target_target]
      rw [hfun, List.map_id]
    have hpermt : ((completion.filterMap
        (fun i => (targets.map (fun t => configure_target cmds nonroot_user (envOf t) t))[i]?)).map
          SessionOutcome.target).Perm targets := by
      have := hperm2.map SessionOutcome.target
      rwa [hmap] at this
    refine ⟨?_, hpermt, ?_, ?_⟩
    · rw [hperm2.length_eq, hlen]
    · intro t ht
      have : t ∈ (completion.filterMap
          (fun i => (targets.map (fun t => configure_target cmds nonroot_user (envOf t) t))[i]?)).map
            SessionOutcome.target := hpermt.mem_iff.mpr ht
      obtain ⟨o, ho, rfl⟩ := List.mem_map.mp this
      exact ⟨o, ho, rfl⟩
    · intro hnd
      exact hpermt.nodup_iff.mpr hnd

/-- Witness for C4: two targets collected in reversed completion order
give a two-outcome report covering both targets exactly once. -/
theorem claim_c4_witness :
    ((["10.0.0.5", "10.0.0.6"] : List String) ≠ []) ∧
    ([1, 0].Perm (List.range (["10.0.0.5", "10.0.0.6"] : List String).length)) ∧
    ∃ report, configure_target_concurrent (fun _ => envAllOk) [1, 0] ["10.0.0.5", "10.0.0.6"]
        "deploy" (BashCommands.build "deploy" pkEx) = Except.ok report ∧
      report.length = (["10.0.0.5", "10.0.0.6"] : List String).length ∧
      (report.map SessionOutcome.target).Perm ["10.0.0.5", "10.0.0.6"] ∧
      (∀ t ∈ (["10.0.0.5", "10.0.0.6"] : List String), ∃ o ∈ report, o.target = t) ∧
      ((["10.0.0.5", "10.0.0.6"] : List String).Nodup →
        (report.map SessionOutcome.target).Nodup) :=
  ⟨by decide, by decide,
    claim_c4 (fun _ => envAllOk) [1, 0] ["10.0.0.5", "10.0.0.6"] "deploy"
      (BashCommands.build "deploy" pkEx) (by decide) (by decide)⟩
